import Mathlib

/-!
Verification of the data model of `app/models.py`: entity schemas, DTO
(create/update) validation constraints, and the Job Record Store contract
described by the specification (state machine for `VideoGenerationJob.status`,
uniqueness, referential integrity, progress log monotonicity, round-trip
serialization).

Conventions of the embedding:
- python `datetime` is a timestamp, embedded as `Nat`;
- python `Decimal` is embedded as `ℚ` (`decimal_places` in a `Field(...)`
  declaration is column/storage metadata, not a range constraint, and is not
  modelled);
- `Dict[str, Any]` JSON payloads are embedded as association lists
  `List (String × String)` (an opaque JSON object);
- SQL `Relationship` back-references are dropped; relations are plain
  foreign-key ids, and the primary key of a persisted row is a `Nat`.
-/

abbrev DateTime := Nat

abbrev JsonDict := List (String × String)

/-- `JobStatus(str, Enum)` from models.py. -/
inductive JobStatus where
  | pending
  | processing
  | completed
  | failed
  | cancelled
deriving Repr, DecidableEq

/-- `TTSProvider(str, Enum)` from models.py. -/
inductive TTSProvider where
  | elevenlabs
  | openai
  | google
  | amazon
deriving Repr, DecidableEq

/-- `VideoFormat(str, Enum)` from models.py. -/
inductive VideoFormat where
  | mp4
  | mov
  | avi
deriving Repr, DecidableEq

/-- The string value backing each `JobStatus` member. -/
def JobStatus.toStr : JobStatus → String
  | .pending => "pending"
  | .processing => "processing"
  | .completed => "completed"
  | .failed => "failed"
  | .cancelled => "cancelled"

/-- The string value backing each `TTSProvider` member. -/
def TTSProvider.toStr : TTSProvider → String
  | .elevenlabs => "elevenlabs"
  | .openai => "openai"
  | .google => "google"
  | .amazon => "amazon"

/-- The string value backing each `VideoFormat` member. -/
def VideoFormat.toStr : VideoFormat → String
  | .mp4 => "mp4"
  | .mov => "mov"
  | .avi => "avi"

def JobStatus.ofStr : String → Option JobStatus
  | "pending" => some .pending
  | "processing" => some .processing
  | "completed" => some .completed
  | "failed" => some .failed
  | "cancelled" => some .cancelled
  | _ => none

def TTSProvider.ofStr : String → Option TTSProvider
  | "elevenlabs" => some .elevenlabs
  | "openai" => some .openai
  | "google" => some .google
  | "amazon" => some .amazon
  | _ => none

def VideoFormat.ofStr : String → Option VideoFormat
  | "mp4" => some .mp4
  | "mov" => some .mov
  | "avi" => some .avi
  | _ => none

/-- Table `users` (models.py lines 30-50, relationship fields dropped). -/
structure User where
  id : Nat
  username : String
  email : String
  is_active : Bool
  created_at : DateTime
  updated_at : DateTime
  reddit_client_id : Option String
  reddit_client_secret : Option String
  tts_api_key : Option String
deriving Repr, DecidableEq

/-- Table `reddit_posts` (models.py lines 53-77). -/
structure RedditPost where
  id : Nat
  reddit_id : String
  subreddit : String
  title : String
  content : String
  author : String
  score : Int
  num_comments : Int
  created_utc : DateTime
  url : String
  permalink : String
  word_count : Int
  estimated_duration : ℚ
  user_id : Nat
  created_at : DateTime
deriving Repr, DecidableEq

/-- Table `background_videos` (models.py lines 80-104). -/
structure BackgroundVideo where
  id : Nat
  filename : String
  original_filename : String
  file_path : String
  file_size : Int
  duration : ℚ
  width : Int
  height : Int
  fps : ℚ
  format : VideoFormat
  description : String
  tags : List String
  user_id : Nat
  created_at : DateTime
  updated_at : DateTime
deriving Repr, DecidableEq

/-- Table `tts_configurations` (models.py lines 107-131). -/
structure TTSConfiguration where
  id : Nat
  name : String
  provider : TTSProvider
  voice_id : String
  voice_name : String
  speed : ℚ
  pitch : ℚ
  volume : ℚ
  settings : JsonDict
  is_default : Bool
  user_id : Nat
  created_at : DateTime
  updated_at : DateTime
deriving Repr, DecidableEq

/-- Table `subtitle_styles` (models.py lines 134-171). -/
structure SubtitleStyle where
  id : Nat
  name : String
  font_family : String
  font_size : Int
  font_weight : String
  font_color : String
  background_color : Option String
  background_opacity : ℚ
  outline_color : String
  outline_width : Int
  position_x : ℚ
  position_y : ℚ
  alignment : String
  fade_in_duration : ℚ
  fade_out_duration : ℚ
  settings : JsonDict
  is_default : Bool
  user_id : Nat
  created_at : DateTime
  updated_at : DateTime
deriving Repr, DecidableEq

/-- Table `video_generation_jobs` (models.py lines 174-226). -/
structure VideoGenerationJob where
  id : Nat
  job_name : String
  status : JobStatus
  target_duration : ℚ
  output_width : Int
  output_height : Int
  output_fps : Int
  output_format : VideoFormat
  progress_percentage : ℚ
  current_step : String
  estimated_completion : Option DateTime
  output_filename : Option String
  output_file_path : Option String
  output_file_size : Option Int
  error_message : Option String
  retry_count : Nat
  max_retries : Nat
  processing_log : List String
  processing_settings : JsonDict
  user_id : Nat
  reddit_post_id : Nat
  background_video_id : Nat
  tts_config_id : Nat
  subtitle_style_id : Nat
  created_at : DateTime
  started_at : Option DateTime
  completed_at : Option DateTime
  updated_at : DateTime
deriving Repr, DecidableEq

/-- Table `job_progress_updates` (models.py lines 229-244). -/
structure JobProgressUpdate where
  id : Nat
  progress_percentage : ℚ
  step_name : String
  step_description : String
  update_metadata : JsonDict
  video_job_id : Nat
  created_at : DateTime
deriving Repr, DecidableEq

/-- DTO `UserCreate` (models.py lines 248-253). -/
structure UserCreate where
  username : String
  email : String
  reddit_client_id : Option String
  reddit_client_secret : Option String
  tts_api_key : Option String
deriving Repr, DecidableEq

/-- DTO `RedditPostCreate` (models.py lines 265-278). -/
structure RedditPostCreate where
  reddit_id : String
  subreddit : String
  title : String
  content : String
  author : String
  score : Int
  num_comments : Int
  created_utc : DateTime
  url : String
  permalink : String
  word_count : Int
  estimated_duration : ℚ
  user_id : Nat
deriving Repr, DecidableEq

/-- DTO `BackgroundVideoCreate` (models.py lines 281-293). -/
structure BackgroundVideoCreate where
  filename : String
  original_filename : String
  file_path : String
  file_size : Int
  duration : ℚ
  width : Int
  height : Int
  fps : ℚ
  format : VideoFormat
  description : String
  tags : List String
  user_id : Nat
deriving Repr, DecidableEq

/-- DTO `BackgroundVideoUpdate` (models.py lines 296-298). -/
structure BackgroundVideoUpdate where
  description : Option String
  tags : Option (List String)
deriving Repr, DecidableEq

/-- DTO `TTSConfigurationCreate` (models.py lines 301-311). -/
structure TTSConfigurationCreate where
  name : String
  provider : TTSProvider
  voice_id : String
  voice_name : String
  speed : ℚ
  pitch : ℚ
  volume : ℚ
  settings : JsonDict
  is_default : Bool
  user_id : Nat
deriving Repr, DecidableEq

/-- DTO `TTSConfigurationUpdate` (models.py lines 314-322). -/
structure TTSConfigurationUpdate where
  name : Option String
  voice_id : Option String
  voice_name : Option String
  speed : Option ℚ
  pitch : Option ℚ
  volume : Option ℚ
  settings : Option JsonDict
  is_default : Option Bool
deriving Repr, DecidableEq

/-- DTO `SubtitleStyleCreate` (models.py lines 325-342). -/
structure SubtitleStyleCreate where
  name : String
  font_family : String
  font_size : Int
  font_weight : String
  font_color : String
  background_color : Option String
  background_opacity : ℚ
  outline_color : String
  outline_width : Int
  position_x : ℚ
  position_y : ℚ
  alignment : String
  fade_in_duration : ℚ
  fade_out_duration : ℚ
  settings : JsonDict
  is_default : Bool
  user_id : Nat
deriving Repr, DecidableEq

/-- DTO `VideoGenerationJobCreate` (models.py lines 364-376). -/
structure VideoGenerationJobCreate where
  job_name : String
  target_duration : ℚ
  output_width : Int
  output_height : Int
  output_fps : Int
  output_format : VideoFormat
  processing_settings : JsonDict
  user_id : Nat
  reddit_post_id : Nat
  background_video_id : Nat
  tts_config_id : Nat
  subtitle_style_id : Nat
deriving Repr, DecidableEq

/-- DTO `VideoGenerationJobUpdate` (models.py lines 379-389). -/
structure VideoGenerationJobUpdate where
  job_name : Option String
  status : Option JobStatus
  progress_percentage : Option ℚ
  current_step : Option String
  estimated_completion : Option DateTime
  output_filename : Option String
  output_file_path : Option String
  output_file_size : Option Int
  error_message : Option String
deriving Repr, DecidableEq

/-- DTO `JobProgressUpdateCreate` (models.py lines 391-396). -/
structure JobProgressUpdateCreate where
  progress_percentage : ℚ
  step_name : String
  step_description : String
  update_metadata : JsonDict
  video_job_id : Nat
deriving Repr, DecidableEq

/-- `max_length=n` constraint on a required string field. -/
def lenLe (s : String) (n : Nat) : Bool :=
  decide (s.length ≤ n)

/-- `max_length=n` constraint on an optional string field. -/
def optLenLe (o : Option String) (n : Nat) : Bool :=
  match o with
  | none => true
  | some s => lenLe s n

/-- `ge=lo, le=hi` range constraint on a required numeric field. -/
def ratIn (q lo hi : ℚ) : Bool :=
  decide (lo ≤ q) && decide (q ≤ hi)

/-- `ge=lo, le=hi` range constraint on an optional numeric field. -/
def optRatIn (o : Option ℚ) (lo hi : ℚ) : Bool :=
  match o with
  | none => true
  | some q => ratIn q lo hi

/-- `ge=lo, le=hi` range constraint on a required integer field. -/
def intIn (n lo hi : Int) : Bool :=
  decide (lo ≤ n) && decide (n ≤ hi)

/-- Field validation of `UserCreate` per the `Field(...)` constraints at
models.py lines 248-253. -/
def UserCreate.valid (c : UserCreate) : Bool :=
  lenLe c.username 100 && lenLe c.email 255 &&
  optLenLe c.reddit_client_id 500 && optLenLe c.reddit_client_secret 500 &&
  optLenLe c.tts_api_key 500

/-- Field validation of `RedditPostCreate` per the `Field(...)` constraints at
models.py lines 265-278: string lengths only; `word_count` and
`estimated_duration` carry no declared bound. -/
def RedditPostCreate.valid (c : RedditPostCreate) : Bool :=
  lenLe c.reddit_id 50 && lenLe c.subreddit 100 && lenLe c.title 500 &&
  lenLe c.author 100 && lenLe c.url 500 && lenLe c.permalink 500

/-- Field validation of `BackgroundVideoCreate` per the `Field(...)`
constraints at models.py lines 281-293: string lengths only; `file_size`,
`duration`, `width`, `height`, `fps` carry no declared bound. -/
def BackgroundVideoCreate.valid (c : BackgroundVideoCreate) : Bool :=
  lenLe c.filename 255 && lenLe c.original_filename 255 &&
  lenLe c.file_path 500 && lenLe c.description 500

/-- Field validation of `BackgroundVideoUpdate` per models.py lines 296-298. -/
def BackgroundVideoUpdate.valid (u : BackgroundVideoUpdate) : Bool :=
  optLenLe u.description 500

/-- Field validation of `TTSConfigurationCreate` per the `Field(...)`
constraints at models.py lines 301-311 (`speed ∈ [0.1, 3.0]`,
`pitch ∈ [0.1, 2.0]`, `volume ∈ [0.1, 2.0]`). -/
def TTSConfigurationCreate.valid (c : TTSConfigurationCreate) : Bool :=
  lenLe c.name 100 && lenLe c.voice_id 100 && lenLe c.voice_name 100 &&
  ratIn c.speed (mkRat 1 10) 3 && ratIn c.pitch (mkRat 1 10) 2 &&
  ratIn c.volume (mkRat 1 10) 2

/-- Field validation of `TTSConfigurationUpdate` per the `Field(...)`
constraints at models.py lines 314-322. -/
def TTSConfigurationUpdate.valid (u : TTSConfigurationUpdate) : Bool :=
  optLenLe u.name 100 && optLenLe u.voice_id 100 && optLenLe u.voice_name 100 &&
  optRatIn u.speed (mkRat 1 10) 3 && optRatIn u.pitch (mkRat 1 10) 2 &&
  optRatIn u.volume (mkRat 1 10) 2

/-- Field validation of `SubtitleStyleCreate` per the `Field(...)` constraints
at models.py lines 325-342. -/
def SubtitleStyleCreate.valid (c : SubtitleStyleCreate) : Bool :=
  lenLe c.name 100 && lenLe c.font_family 100 &&
  intIn c.font_size 10 72 && lenLe c.font_weight 20 && lenLe c.font_color 7 &&
  optLenLe c.background_color 7 && ratIn c.background_opacity 0 1 &&
  lenLe c.outline_color 7 && intIn c.outline_width 0 10 &&
  ratIn c.position_x 0 1 && ratIn c.position_y 0 1 && lenLe c.alignment 20 &&
  decide ((0 : ℚ) ≤ c.fade_in_duration) && decide ((0 : ℚ) ≤ c.fade_out_duration)

/-- Field validation of `VideoGenerationJobCreate` per the `Field(...)`
constraints at models.py lines 364-376. -/
def VideoGenerationJobCreate.valid (c : VideoGenerationJobCreate) : Bool :=
  lenLe c.job_name 200 && decide ((1 : ℚ) ≤ c.target_duration) &&
  intIn c.output_width 480 1920 && intIn c.output_height 480 1920 &&
  intIn c.output_fps 24 60

/-- Field validation of `VideoGenerationJobUpdate` per the `Field(...)`
constraints at models.py lines 379-389 (`progress_percentage ∈ [0, 100]`). -/
def VideoGenerationJobUpdate.valid (u : VideoGenerationJobUpdate) : Bool :=
  optLenLe u.job_name 200 && optRatIn u.progress_percentage 0 100 &&
  optLenLe u.current_step 200 && optLenLe u.output_filename 255 &&
  optLenLe u.output_file_path 500 && optLenLe u.error_message 1000

/-- Field validation of `JobProgressUpdateCreate` per the `Field(...)`
constraints at models.py lines 391-396 (`progress_percentage ∈ [0, 100]`). -/
def JobProgressUpdateCreate.valid (c : JobProgressUpdateCreate) : Bool :=
  ratIn c.progress_percentage 0 100 && lenLe c.step_name 200 &&
  lenLe c.step_description 500

/-- Error kinds of the Job Record Store (spec section 7). -/
inductive StoreError where
  | validationError
  | conflictError
  | notFoundError
  | stateError
deriving Repr, DecidableEq

/-- Modelled from the spec: the Job Record Store state (spec section 2); the
repository contains only the schema declarations, not the store itself. Rows
of each table in insertion order, plus the next synthetic integer id. -/
structure Store where
  users : List User
  redditPosts : List RedditPost
  backgroundVideos : List BackgroundVideo
  ttsConfigurations : List TTSConfiguration
  subtitleStyles : List SubtitleStyle
  videoJobs : List VideoGenerationJob
  jobProgressUpdates : List JobProgressUpdate
  nextId : Nat
deriving Repr, DecidableEq

def emptyStore : Store :=
  { users := [], redditPosts := [], backgroundVideos := [],
    ttsConfigurations := [], subtitleStyles := [], videoJobs := [],
    jobProgressUpdates := [], nextId := 1 }

def Store.hasUser (s : Store) (uid : Nat) : Bool :=
  s.users.any (fun u => u.id == uid)

def Store.hasRedditPost (s : Store) (pid : Nat) : Bool :=
  s.redditPosts.any (fun p => p.id == pid)

def Store.hasBackgroundVideo (s : Store) (vid : Nat) : Bool :=
  s.backgroundVideos.any (fun v => v.id == vid)

def Store.hasTTSConfiguration (s : Store) (cid : Nat) : Bool :=
  s.ttsConfigurations.any (fun c => c.id == cid)

def Store.hasSubtitleStyle (s : Store) (sid : Nat) : Bool :=
  s.subtitleStyles.any (fun st => st.id == sid)

def Store.hasVideoJob (s : Store) (jid : Nat) : Bool :=
  s.videoJobs.any (fun j => j.id == jid)

/-- An optional DTO field overriding an optional entity field: `some` replaces,
`none` keeps the stored value. -/
def setOpt (new : Option α) (old : Option α) : Option α :=
  match new with
  | some x => some x
  | none => old

/-- Modelled from the spec: `createUser` of the Job Record Store (the store
implementation is absent from the repository). Field validation per models.py
lines 248-253 signals ValidationError; a duplicate username or email signals
ConflictError (spec sections 4.1 and 7); otherwise the row is inserted with
the defaults of models.py lines 30-50. -/
def createUser (s : Store) (c : UserCreate) (now : DateTime) :
    Except StoreError Store :=
  if !c.valid then .error .validationError
  else if s.users.any (fun u => u.username == c.username || u.email == c.email) then
    .error .conflictError
  else
    .ok { s with
      users := s.users ++ [{
        id := s.nextId, username := c.username, email := c.email,
        is_active := true, created_at := now, updated_at := now,
        reddit_client_id := c.reddit_client_id,
        reddit_client_secret := c.reddit_client_secret,
        tts_api_key := c.tts_api_key }],
      nextId := s.nextId + 1 }

/-- Modelled from the spec: `createRedditPost` of the Job Record Store.
Field validation per models.py lines 265-278; a duplicate `reddit_id` signals
ConflictError; a dangling `user_id` signals NotFoundError (spec sections 4.1
and 7). -/
def createRedditPost (s : Store) (c : RedditPostCreate) (now : DateTime) :
    Except StoreError Store :=
  if !c.valid then .error .validationError
  else if s.redditPosts.any (fun p => p.reddit_id == c.reddit_id) then
    .error .conflictError
  else if !s.hasUser c.user_id then .error .notFoundError
  else
    .ok { s with
      redditPosts := s.redditPosts ++ [{
        id := s.nextId, reddit_id := c.reddit_id, subreddit := c.subreddit,
        title := c.title, content := c.content, author := c.author,
        score := c.score, num_comments := c.num_comments,
        created_utc := c.created_utc, url := c.url, permalink := c.permalink,
        word_count := c.word_count, estimated_duration := c.estimated_duration,
        user_id := c.user_id, created_at := now }],
      nextId := s.nextId + 1 }

/-- Modelled from the spec: `createBackgroundVideo` of the Job Record Store.
Field validation per models.py lines 281-293; a dangling `user_id` signals
NotFoundError. -/
def createBackgroundVideo (s : Store) (c : BackgroundVideoCreate) (now : DateTime) :
    Except StoreError Store :=
  if !c.valid then .error .validationError
  else if !s.hasUser c.user_id then .error .notFoundError
  else
    .ok { s with
      backgroundVideos := s.backgroundVideos ++ [{
        id := s.nextId, filename := c.filename,
        original_filename := c.original_filename, file_path := c.file_path,
        file_size := c.file_size, duration := c.duration, width := c.width,
        height := c.height, fps := c.fps, format := c.format,
        description := c.description, tags := c.tags, user_id := c.user_id,
        created_at := now, updated_at := now }],
      nextId := s.nextId + 1 }

/-- Modelled from the spec: applying a `BackgroundVideoUpdate` (models.py
lines 296-298) to a stored row: the DTO carries only `description` and
`tags`, so only those fields (and the bookkeeping `updated_at`) change. -/
def applyBackgroundVideoUpdate (v : BackgroundVideo) (u : BackgroundVideoUpdate)
    (now : DateTime) : BackgroundVideo :=
  { v with
    description := u.description.getD v.description
    tags := u.tags.getD v.tags
    updated_at := now }

/-- Modelled from the spec: `updateBackgroundVideo` of the Job Record Store. -/
def updateBackgroundVideo (s : Store) (vid : Nat) (u : BackgroundVideoUpdate)
    (now : DateTime) : Except StoreError Store :=
  if !u.valid then .error .validationError
  else
    match s.backgroundVideos.find? (fun v => v.id == vid) with
    | none => .error .notFoundError
    | some v =>
      .ok { s with
        backgroundVideos := s.backgroundVideos.map
          (fun w => if w.id == vid then applyBackgroundVideoUpdate v u now else w) }

/-- Modelled from the spec: `createTTSConfiguration` of the Job Record Store.
Field validation per models.py lines 301-311 (speed, pitch, volume bounds);
a dangling `user_id` signals NotFoundError. -/
def createTTSConfiguration (s : Store) (c : TTSConfigurationCreate) (now : DateTime) :
    Except StoreError Store :=
  if !c.valid then .error .validationError
  else if !s.hasUser c.user_id then .error .notFoundError
  else
    .ok { s with
      ttsConfigurations := s.ttsConfigurations ++ [{
        id := s.nextId, name := c.name, provider := c.provider,
        voice_id := c.voice_id, voice_name := c.voice_name, speed := c.speed,
        pitch := c.pitch, volume := c.volume, settings := c.settings,
        is_default := c.is_default, user_id := c.user_id,
        created_at := now, updated_at := now }],
      nextId := s.nextId + 1 }

/-- Modelled from the spec: applying a `TTSConfigurationUpdate` (models.py
lines 314-322) to a stored row; `some` fields replace, `none` fields keep. -/
def applyTTSConfigurationUpdate (c : TTSConfiguration) (u : TTSConfigurationUpdate)
    (now : DateTime) : TTSConfiguration :=
  { c with
    name := u.name.getD c.name
    voice_id := u.voice_id.getD c.voice_id
    voice_name := u.voice_name.getD c.voice_name
    speed := u.speed.getD c.speed
    pitch := u.pitch.getD c.pitch
    volume := u.volume.getD c.volume
    settings := u.settings.getD c.settings
    is_default := u.is_default.getD c.is_default
    updated_at := now }

/-- Modelled from the spec: `updateTTSConfiguration` of the Job Record Store.
Field validation per models.py lines 314-322 signals ValidationError. -/
def updateTTSConfiguration (s : Store) (cid : Nat) (u : TTSConfigurationUpdate)
    (now : DateTime) : Except StoreError Store :=
  if !u.valid then .error .validationError
  else
    match s.ttsConfigurations.find? (fun c => c.id == cid) with
    | none => .error .notFoundError
    | some c =>
      .ok { s with
        ttsConfigurations := s.ttsConfigurations.map
          (fun d => if d.id == cid then applyTTSConfigurationUpdate c u now else d) }

/-- Modelled from the spec: `createSubtitleStyle` of the Job Record Store.
Field validation per models.py lines 325-342; a dangling `user_id` signals
NotFoundError. -/
def createSubtitleStyle (s : Store) (c : SubtitleStyleCreate) (now : DateTime) :
    Except StoreError Store :=
  if !c.valid then .error .validationError
  else if !s.hasUser c.user_id then .error .notFoundError
  else
    .ok { s with
      subtitleStyles := s.subtitleStyles ++ [{
        id := s.nextId, name := c.name, font_family := c.font_family,
        font_size := c.font_size, font_weight := c.font_weight,
        font_color := c.font_color, background_color := c.background_color,
        background_opacity := c.background_opacity,
        outline_color := c.outline_color, outline_width := c.outline_width,
        position_x := c.position_x, position_y := c.position_y,
        alignment := c.alignment, fade_in_duration := c.fade_in_duration,
        fade_out_duration := c.fade_out_duration, settings := c.settings,
        is_default := c.is_default, user_id := c.user_id,
        created_at := now, updated_at := now }],
      nextId := s.nextId + 1 }

/-- Modelled from the spec: `createVideoGenerationJob` of the Job Record
Store. Field validation per models.py lines 364-376; each of the five foreign
keys must reference an existing row, else NotFoundError; the row is inserted
with the defaults of models.py lines 174-226 (initial status `pending`,
progress 0, `retry_count` 0, `max_retries` 3). -/
def newVideoJobRow (c : VideoGenerationJobCreate) (id : Nat) (now : DateTime) :
    VideoGenerationJob :=
  { id := id, job_name := c.job_name, status := .pending,
    target_duration := c.target_duration, output_width := c.output_width,
    output_height := c.output_height, output_fps := c.output_fps,
    output_format := c.output_format, progress_percentage := 0,
    current_step := "", estimated_completion := none,
    output_filename := none, output_file_path := none,
    output_file_size := none, error_message := none, retry_count := 0,
    max_retries := 3, processing_log := [], processing_settings := [],
    user_id := c.user_id, reddit_post_id := c.reddit_post_id,
    background_video_id := c.background_video_id,
    tts_config_id := c.tts_config_id,
    subtitle_style_id := c.subtitle_style_id, created_at := now,
    started_at := none, completed_at := none, updated_at := now }

def createVideoGenerationJob (s : Store) (c : VideoGenerationJobCreate)
    (now : DateTime) : Except StoreError Store :=
  if !c.valid then .error .validationError
  else if !(s.hasUser c.user_id && s.hasRedditPost c.reddit_post_id &&
      s.hasBackgroundVideo c.background_video_id &&
      s.hasTTSConfiguration c.tts_config_id &&
      s.hasSubtitleStyle c.subtitle_style_id) then .error .notFoundError
  else
    .ok { s with
      videoJobs := s.videoJobs ++ [newVideoJobRow c s.nextId now],
      nextId := s.nextId + 1 }

/-- The status transitions the Job Record Store accepts in an update request
(spec section 4.1 state machine): `pending→processing`,
`processing→completed`, `processing→failed`, `processing→cancelled`. -/
def allowedTransition : JobStatus → JobStatus → Bool
  | .pending, .processing => true
  | .processing, .completed => true
  | .processing, .failed => true
  | .processing, .cancelled => true
  | _, _ => false

/-- Terminal statuses of the spec section 4.1 state machine. -/
def JobStatus.isTerminal : JobStatus → Bool
  | .completed => true
  | .failed => true
  | .cancelled => true
  | _ => false

/-- Modelled from the spec: applying a `VideoGenerationJobUpdate` (models.py
lines 379-389) to a stored job, per the spec section 4.1 state machine.
Field validation signals ValidationError. Non-status fields are applied, then
a requested status change must be an `allowedTransition`, else StateError:
`pending→processing` sets `started_at`; `processing→completed` requires
`progress_percentage = 100` and sets `completed_at`; `processing→failed` with
`retry_count < max_retries` increments `retry_count` and re-enters `pending`,
otherwise it records the terminal `failed` status; `processing→cancelled`
sets `completed_at`. `applyJobFields` is the non-status part: each `some`
field of the DTO replaces the stored value, each `none` field keeps it. -/
def applyJobFields (job : VideoGenerationJob) (u : VideoGenerationJobUpdate)
    (now : DateTime) : VideoGenerationJob :=
  { job with
    job_name := u.job_name.getD job.job_name
    progress_percentage := u.progress_percentage.getD job.progress_percentage
    current_step := u.current_step.getD job.current_step
    estimated_completion := setOpt u.estimated_completion job.estimated_completion
    output_filename := setOpt u.output_filename job.output_filename
    output_file_path := setOpt u.output_file_path job.output_file_path
    output_file_size := setOpt u.output_file_size job.output_file_size
    error_message := setOpt u.error_message job.error_message
    updated_at := now }

def applyJobUpdate (job : VideoGenerationJob) (u : VideoGenerationJobUpdate)
    (now : DateTime) : Except StoreError VideoGenerationJob :=
  if !u.valid then .error .validationError
  else
    match u.status with
    | none => .ok (applyJobFields job u now)
    | some target =>
      match job.status, target with
      | .pending, .processing =>
        .ok { applyJobFields job u now with
          status := .processing, started_at := some now }
      | .processing, .completed =>
        if (applyJobFields job u now).progress_percentage = 100 then
          .ok { applyJobFields job u now with
            status := .completed, completed_at := some now }
        else .error .stateError
      | .processing, .failed =>
        if job.retry_count < job.max_retries then
          .ok { applyJobFields job u now with
            status := .pending, retry_count := job.retry_count + 1 }
        else
          .ok { applyJobFields job u now with
            status := .failed, completed_at := some now }
      | .processing, .cancelled =>
        .ok { applyJobFields job u now with
          status := .cancelled, completed_at := some now }
      | _, _ => .error .stateError

/-- Modelled from the spec: `updateVideoGenerationJob` of the Job Record
Store: locate the job, apply the update, replace the row on success. -/
def updateVideoGenerationJob (s : Store) (jid : Nat) (u : VideoGenerationJobUpdate)
    (now : DateTime) : Except StoreError Store :=
  match s.videoJobs.find? (fun j => j.id == jid) with
  | none => .error .notFoundError
  | some job =>
    match applyJobUpdate job u now with
    | .error e => .error e
    | .ok j2 =>
      .ok { s with
        videoJobs := s.videoJobs.map (fun j => if j.id == jid then j2 else j) }

/-- The `progress_percentage` values of the progress-update log of job `jid`,
in creation order. -/
def progressLog (s : Store) (jid : Nat) : List ℚ :=
  (s.jobProgressUpdates.filter (fun p => p.video_job_id == jid)).map
    (fun p => p.progress_percentage)

/-- The `progress_percentage` of the latest recorded entry for job `jid`. -/
def latestProgress (s : Store) (jid : Nat) : Option ℚ :=
  (progressLog s jid).getLast?

/-- Modelled from the spec: `createJobProgressUpdate` of the Job Record
Store. Field validation per models.py lines 391-396; a dangling
`video_job_id` signals NotFoundError; an entry whose `progress_percentage` is
lower than the latest recorded entry for that job is rejected, keeping the
log non-decreasing in creation order (spec section 8). -/
def newProgressRow (c : JobProgressUpdateCreate) (id : Nat) (now : DateTime) :
    JobProgressUpdate :=
  { id := id, progress_percentage := c.progress_percentage,
    step_name := c.step_name, step_description := c.step_description,
    update_metadata := c.update_metadata,
    video_job_id := c.video_job_id, created_at := now }

def createJobProgressUpdate (s : Store) (c : JobProgressUpdateCreate)
    (now : DateTime) : Except StoreError Store :=
  if !c.valid then .error .validationError
  else if !s.hasVideoJob c.video_job_id then .error .notFoundError
  else if decide (∃ p ∈ latestProgress s c.video_job_id, c.progress_percentage < p) then
    .error .stateError
  else
    .ok { s with
      jobProgressUpdates := s.jobProgressUpdates ++ [newProgressRow c s.nextId now],
      nextId := s.nextId + 1 }

/-- Modelled from the spec: the wire representation used by the round-trip
property of spec section 8 (no serializer is present in the repository). A
typed value: booleans, numbers, strings, nullable atoms for the optional
columns, string arrays (`tags`, `processing_log`), opaque JSON objects
(`JsonDict` payloads, copied verbatim), and arrays of values; a row is
serialized as the array of its field values in declaration order. -/
inductive Value where
  | vBool (b : Bool)
  | vNat (n : Nat)
  | vInt (n : Int)
  | vRat (q : ℚ)
  | vStr (s : String)
  | vOptNat (o : Option Nat)
  | vOptInt (o : Option Int)
  | vOptStr (o : Option String)
  | vStrs (l : List String)
  | vPairs (l : List (String × String))
  | vList (vs : List Value)

/-- Enum members are serialized through their backing string value. -/
def encJobStatus (st : JobStatus) : Value :=
  .vStr st.toStr

def encTTSProvider (pr : TTSProvider) : Value :=
  .vStr pr.toStr

def encVideoFormat (f : VideoFormat) : Value :=
  .vStr f.toStr

/-- Modelled from the spec: field-by-field serialization of a `User` row. -/
def User.serialize (u : User) : Value :=
  .vList [.vNat u.id, .vStr u.username, .vStr u.email, .vBool u.is_active,
    .vNat u.created_at, .vNat u.updated_at, .vOptStr u.reddit_client_id,
    .vOptStr u.reddit_client_secret, .vOptStr u.tts_api_key]

/-- Modelled from the spec: deserialization of a `User` row. -/
def User.deserialize : Value → Option User
  | .vList [.vNat id, .vStr username, .vStr email, .vBool is_active,
      .vNat created_at, .vNat updated_at, .vOptStr rci, .vOptStr rcs,
      .vOptStr tak] =>
    some ⟨id, username, email, is_active, created_at, updated_at, rci, rcs, tak⟩
  | _ => none

/-- Modelled from the spec: field-by-field serialization of a `RedditPost` row. -/
def RedditPost.serialize (p : RedditPost) : Value :=
  .vList [.vNat p.id, .vStr p.reddit_id, .vStr p.subreddit, .vStr p.title,
    .vStr p.content, .vStr p.author, .vInt p.score, .vInt p.num_comments,
    .vNat p.created_utc, .vStr p.url, .vStr p.permalink, .vInt p.word_count,
    .vRat p.estimated_duration, .vNat p.user_id, .vNat p.created_at]

/-- Modelled from the spec: deserialization of a `RedditPost` row. -/
def RedditPost.deserialize : Value → Option RedditPost
  | .vList [.vNat id, .vStr reddit_id, .vStr subreddit, .vStr title,
      .vStr content, .vStr author, .vInt score, .vInt num_comments,
      .vNat created_utc, .vStr url, .vStr permalink, .vInt word_count,
      .vRat estimated_duration, .vNat user_id, .vNat created_at] =>
    some ⟨id, reddit_id, subreddit, title, content, author, score,
      num_comments, created_utc, url, permalink, word_count,
      estimated_duration, user_id, created_at⟩
  | _ => none

/-- Modelled from the spec: field-by-field serialization of a
`BackgroundVideo` row. -/
def BackgroundVideo.serialize (v : BackgroundVideo) : Value :=
  .vList [.vNat v.id, .vStr v.filename, .vStr v.original_filename,
    .vStr v.file_path, .vInt v.file_size, .vRat v.duration, .vInt v.width,
    .vInt v.height, .vRat v.fps, encVideoFormat v.format, .vStr v.description,
    .vStrs v.tags, .vNat v.user_id, .vNat v.created_at, .vNat v.updated_at]

/-- Modelled from the spec: deserialization of a `BackgroundVideo` row; the
`format` enum member is recovered from its backing string value. -/
def BackgroundVideo.deserialize : Value → Option BackgroundVideo
  | .vList [.vNat id, .vStr filename, .vStr original_filename,
      .vStr file_path, .vInt file_size, .vRat duration, .vInt width,
      .vInt height, .vRat fps, .vStr fmt, .vStr description, .vStrs tags,
      .vNat user_id, .vNat created_at, .vNat updated_at] =>
    (VideoFormat.ofStr fmt).map (fun format =>
      ⟨id, filename, original_filename, file_path, file_size, duration,
        width, height, fps, format, description, tags, user_id, created_at,
        updated_at⟩)
  | _ => none

/-- Modelled from the spec: field-by-field serialization of a
`TTSConfiguration` row. -/
def TTSConfiguration.serialize (c : TTSConfiguration) : Value :=
  .vList [.vNat c.id, .vStr c.name, encTTSProvider c.provider,
    .vStr c.voice_id, .vStr c.voice_name, .vRat c.speed, .vRat c.pitch,
    .vRat c.volume, .vPairs c.settings, .vBool c.is_default, .vNat c.user_id,
    .vNat c.created_at, .vNat c.updated_at]

/-- Modelled from the spec: deserialization of a `TTSConfiguration` row; the
`provider` enum member is recovered from its backing string value. -/
def TTSConfiguration.deserialize : Value → Option TTSConfiguration
  | .vList [.vNat id, .vStr name, .vStr pr, .vStr voice_id, .vStr voice_name,
      .vRat speed, .vRat pitch, .vRat volume, .vPairs settings,
      .vBool is_default, .vNat user_id, .vNat created_at,
      .vNat updated_at] =>
    (TTSProvider.ofStr pr).map (fun provider =>
      ⟨id, name, provider, voice_id, voice_name, speed, pitch, volume,
        settings, is_default, user_id, created_at, updated_at⟩)
  | _ => none

/-- Modelled from the spec: field-by-field serialization of a
`SubtitleStyle` row. -/
def SubtitleStyle.serialize (st : SubtitleStyle) : Value :=
  .vList [.vNat st.id, .vStr st.name, .vStr st.font_family,
    .vInt st.font_size, .vStr st.font_weight, .vStr st.font_color,
    .vOptStr st.background_color, .vRat st.background_opacity,
    .vStr st.outline_color, .vInt st.outline_width, .vRat st.position_x,
    .vRat st.position_y, .vStr st.alignment, .vRat st.fade_in_duration,
    .vRat st.fade_out_duration, .vPairs st.settings, .vBool st.is_default,
    .vNat st.user_id, .vNat st.created_at, .vNat st.updated_at]

/-- Modelled from the spec: deserialization of a `SubtitleStyle` row. -/
def SubtitleStyle.deserialize : Value → Option SubtitleStyle
  | .vList [.vNat id, .vStr name, .vStr font_family, .vInt font_size,
      .vStr font_weight, .vStr font_color, .vOptStr background_color,
      .vRat background_opacity, .vStr outline_color, .vInt outline_width,
      .vRat position_x, .vRat position_y, .vStr alignment,
      .vRat fade_in_duration, .vRat fade_out_duration, .vPairs settings,
      .vBool is_default, .vNat user_id, .vNat created_at,
      .vNat updated_at] =>
    some ⟨id, name, font_family, font_size, font_weight, font_color,
      background_color, background_opacity, outline_color, outline_width,
      position_x, position_y, alignment, fade_in_duration, fade_out_duration,
      settings, is_default, user_id, created_at, updated_at⟩
  | _ => none

/-- Modelled from the spec: field-by-field serialization of a
`VideoGenerationJob` row. -/
def VideoGenerationJob.serialize (j : VideoGenerationJob) : Value :=
  .vList [.vNat j.id, .vStr j.job_name, encJobStatus j.status,
    .vRat j.target_duration, .vInt j.output_width, .vInt j.output_height,
    .vInt j.output_fps, encVideoFormat j.output_format,
    .vRat j.progress_percentage, .vStr j.current_step,
    .vOptNat j.estimated_completion, .vOptStr j.output_filename,
    .vOptStr j.output_file_path, .vOptInt j.output_file_size,
    .vOptStr j.error_message, .vNat j.retry_count, .vNat j.max_retries,
    .vStrs j.processing_log, .vPairs j.processing_settings, .vNat j.user_id,
    .vNat j.reddit_post_id, .vNat j.background_video_id,
    .vNat j.tts_config_id, .vNat j.subtitle_style_id, .vNat j.created_at,
    .vOptNat j.started_at, .vOptNat j.completed_at, .vNat j.updated_at]

/-- Modelled from the spec: deserialization of a `VideoGenerationJob` row;
the `status` and `output_format` enum members are recovered from their
backing string values. -/
def VideoGenerationJob.deserialize : Value → Option VideoGenerationJob
  | .vList [.vNat id, .vStr job_name, .vStr st, .vRat target_duration,
      .vInt output_width, .vInt output_height, .vInt output_fps, .vStr fmt,
      .vRat progress_percentage, .vStr current_step,
      .vOptNat estimated_completion, .vOptStr output_filename,
      .vOptStr output_file_path, .vOptInt output_file_size,
      .vOptStr error_message, .vNat retry_count, .vNat max_retries,
      .vStrs processing_log, .vPairs processing_settings, .vNat user_id,
      .vNat reddit_post_id, .vNat background_video_id, .vNat tts_config_id,
      .vNat subtitle_style_id, .vNat created_at, .vOptNat started_at,
      .vOptNat completed_at, .vNat updated_at] =>
    match JobStatus.ofStr st, VideoFormat.ofStr fmt with
    | some status, some output_format =>
      some ⟨id, job_name, status, target_duration, output_width,
        output_height, output_fps, output_format, progress_percentage,
        current_step, estimated_completion, output_filename,
        output_file_path, output_file_size, error_message, retry_count,
        max_retries, processing_log, processing_settings, user_id,
        reddit_post_id, background_video_id, tts_config_id,
        subtitle_style_id, created_at, started_at, completed_at, updated_at⟩
    | _, _ => none
  | _ => none

/-- Modelled from the spec: field-by-field serialization of a
`JobProgressUpdate` row. -/
def JobProgressUpdate.serialize (p : JobProgressUpdate) : Value :=
  .vList [.vNat p.id, .vRat p.progress_percentage, .vStr p.step_name,
    .vStr p.step_description, .vPairs p.update_metadata, .vNat p.video_job_id,
    .vNat p.created_at]

/-- Modelled from the spec: deserialization of a `JobProgressUpdate` row. -/
def JobProgressUpdate.deserialize : Value → Option JobProgressUpdate
  | .vList [.vNat id, .vRat progress_percentage, .vStr step_name,
      .vStr step_description, .vPairs update_metadata, .vNat video_job_id,
      .vNat created_at] =>
    some ⟨id, progress_percentage, step_name, step_description,
      update_metadata, video_job_id, created_at⟩
  | _ => none

/-- Modelled from the spec: one call of the Job Record Store interface. -/
inductive Op where
  | opCreateUser (c : UserCreate)
  | opCreateRedditPost (c : RedditPostCreate)
  | opCreateBackgroundVideo (c : BackgroundVideoCreate)
  | opUpdateBackgroundVideo (vid : Nat) (u : BackgroundVideoUpdate)
  | opCreateTTSConfiguration (c : TTSConfigurationCreate)
  | opUpdateTTSConfiguration (cid : Nat) (u : TTSConfigurationUpdate)
  | opCreateSubtitleStyle (c : SubtitleStyleCreate)
  | opCreateVideoGenerationJob (c : VideoGenerationJobCreate)
  | opUpdateVideoGenerationJob (jid : Nat) (u : VideoGenerationJobUpdate)
  | opCreateJobProgressUpdate (c : JobProgressUpdateCreate)

/-- Dispatch one store call. -/
def stepOp (s : Store) (op : Op) (now : DateTime) : Except StoreError Store :=
  match op with
  | .opCreateUser c => createUser s c now
  | .opCreateRedditPost c => createRedditPost s c now
  | .opCreateBackgroundVideo c => createBackgroundVideo s c now
  | .opUpdateBackgroundVideo vid u => updateBackgroundVideo s vid u now
  | .opCreateTTSConfiguration c => createTTSConfiguration s c now
  | .opUpdateTTSConfiguration cid u => updateTTSConfiguration s cid u now
  | .opCreateSubtitleStyle c => createSubtitleStyle s c now
  | .opCreateVideoGenerationJob c => createVideoGenerationJob s c now
  | .opUpdateVideoGenerationJob jid u => updateVideoGenerationJob s jid u now
  | .opCreateJobProgressUpdate c => createJobProgressUpdate s c now

/-- The store states reachable from the empty store by successful create and
update operations. -/
inductive Reachable : Store → Prop where
  | init : Reachable emptyStore
  | step {s s' : Store} {op : Op} {now : DateTime} :
      Reachable s → stepOp s op now = .ok s' → Reachable s'

/-- The inductive invariant of the Job Record Store: every stored job keeps
`retry_count ≤ max_retries` and `progress_percentage ∈ [0, 100]`, every
progress-update row keeps `progress_percentage ∈ [0, 100]`, and the progress
log of each job is non-decreasing in creation order. -/
def StoreInv (s : Store) : Prop :=
  (∀ j ∈ s.videoJobs, j.retry_count ≤ j.max_retries ∧
    0 ≤ j.progress_percentage ∧ j.progress_percentage ≤ 100) ∧
  (∀ p ∈ s.jobProgressUpdates,
    0 ≤ p.progress_percentage ∧ p.progress_percentage ≤ 100) ∧
  (∀ jid : Nat, List.Chain' (fun a b => a ≤ b) (progressLog s jid))

def storeOpSucceeded : Except StoreError Store → Bool
  | .ok _ => true
  | .error _ => false

def cu1 : UserCreate :=
  { username := "alice", email := "alice@example.com",
    reddit_client_id := none, reddit_client_secret := none,
    tts_api_key := none }

def user1 : User :=
  { id := 1, username := "alice", email := "alice@example.com",
    is_active := true, created_at := 0, updated_at := 0,
    reddit_client_id := none, reddit_client_secret := none,
    tts_api_key := none }

def st1 : Store :=
  { users := [user1], redditPosts := [], backgroundVideos := [],
    ttsConfigurations := [], subtitleStyles := [], videoJobs := [],
    jobProgressUpdates := [], nextId := 2 }

def rp1 : RedditPostCreate :=
  { reddit_id := "abc123", subreddit := "stories", title := "a story",
    content := "once", author := "bob", score := 10, num_comments := 2,
    created_utc := 0, url := "https://r/abc123", permalink := "/r/abc123",
    word_count := 100, estimated_duration := 30, user_id := 1 }

def post1 : RedditPost :=
  { id := 2, reddit_id := "abc123", subreddit := "stories", title := "a story",
    content := "once", author := "bob", score := 10, num_comments := 2,
    created_utc := 0, url := "https://r/abc123", permalink := "/r/abc123",
    word_count := 100, estimated_duration := 30, user_id := 1,
    created_at := 1 }

def st2 : Store := { st1 with redditPosts := [post1], nextId := 3 }

def bv1 : BackgroundVideoCreate :=
  { filename := "bg.mp4", original_filename := "bg.mp4",
    file_path := "/videos/bg.mp4", file_size := 1000, duration := 60,
    width := 1080, height := 1920, fps := 30, format := .mp4,
    description := "", tags := ["city"], user_id := 1 }

def video1 : BackgroundVideo :=
  { id := 3, filename := "bg.mp4", original_filename := "bg.mp4",
    file_path := "/videos/bg.mp4", file_size := 1000, duration := 60,
    width := 1080, height := 1920, fps := 30, format := .mp4,
    description := "", tags := ["city"], user_id := 1, created_at := 2,
    updated_at := 2 }

def st3 : Store := { st2 with backgroundVideos := [video1], nextId := 4 }

def tc1 : TTSConfigurationCreate :=
  { name := "voice", provider := .openai, voice_id := "v1",
    voice_name := "Ann", speed := 1, pitch := 1, volume := 1, settings := [],
    is_default := true, user_id := 1 }

def tts1 : TTSConfiguration :=
  { id := 4, name := "voice", provider := .openai, voice_id := "v1",
    voice_name := "Ann", speed := 1, pitch := 1, volume := 1, settings := [],
    is_default := true, user_id := 1, created_at := 3, updated_at := 3 }

def st4 : Store := { st3 with ttsConfigurations := [tts1], nextId := 5 }

def sc1 : SubtitleStyleCreate :=
  { name := "style", font_family := "Arial", font_size := 24,
    font_weight := "bold", font_color := "#FFFFFF", background_color := none,
    background_opacity := mkRat 4 5, outline_color := "#000000",
    outline_width := 2, position_x := mkRat 1 2, position_y := mkRat 4 5,
    alignment := "center", fade_in_duration := mkRat 1 2,
    fade_out_duration := mkRat 1 2, settings := [], is_default := true,
    user_id := 1 }

def sty1 : SubtitleStyle :=
  { id := 5, name := "style", font_family := "Arial", font_size := 24,
    font_weight := "bold", font_color := "#FFFFFF", background_color := none,
    background_opacity := mkRat 4 5, outline_color := "#000000",
    outline_width := 2, position_x := mkRat 1 2, position_y := mkRat 4 5,
    alignment := "center", fade_in_duration := mkRat 1 2,
    fade_out_duration := mkRat 1 2, settings := [], is_default := true,
    user_id := 1, created_at := 4, updated_at := 4 }

def st5 : Store := { st4 with subtitleStyles := [sty1], nextId := 6 }

def jc1 : VideoGenerationJobCreate :=
  { job_name := "render abc123", target_duration := 60,
    output_width := 1080, output_height := 1920, output_fps := 30,
    output_format := .mp4, processing_settings := [], user_id := 1,
    reddit_post_id := 2, background_video_id := 3, tts_config_id := 4,
    subtitle_style_id := 5 }

def job1 : VideoGenerationJob := newVideoJobRow jc1 6 5

def st6 : Store := { st5 with videoJobs := [job1], nextId := 7 }

def pc1 : JobProgressUpdateCreate :=
  { progress_percentage := 10, step_name := "tts", step_description := "",
    update_metadata := [], video_job_id := 6 }

def jpu1 : JobProgressUpdate := newProgressRow pc1 7 6

def st7 : Store := { st6 with jobProgressUpdates := [jpu1], nextId := 8 }

def jobDone : VideoGenerationJob :=
  { newVideoJobRow jc1 6 5 with
    status := JobStatus.completed, progress_percentage := 100,
    completed_at := some 9 }

def updToPending : VideoGenerationJobUpdate :=
  { job_name := none, status := some .pending, progress_percentage := none,
    current_step := none, estimated_completion := none,
    output_filename := none, output_file_path := none,
    output_file_size := none, error_message := none }

def cuDup : UserCreate :=
  { username := "alice", email := "other@example.com",
    reddit_client_id := none, reddit_client_secret := none,
    tts_api_key := none }

def rpDup : RedditPostCreate :=
  { rp1 with subreddit := "news", title := "same reddit id" }

def ttsBadCreate : TTSConfigurationCreate :=
  { name := "fast", provider := .openai, voice_id := "v9", voice_name := "Bo",
    speed := 5, pitch := 1, volume := 1, settings := [], is_default := false,
    user_id := 1 }

def ttsBadUpdate : TTSConfigurationUpdate :=
  { name := none, voice_id := none, voice_name := none, speed := some 5,
    pitch := none, volume := none, settings := none, is_default := none }

def lowUpd : JobProgressUpdateCreate :=
  { progress_percentage := 5, step_name := "later", step_description := "",
    update_metadata := [], video_job_id := 6 }

def bgBadCreate : BackgroundVideoCreate :=
  { filename := "bad.mp4", original_filename := "bad.mp4",
    file_path := "/videos/bad.mp4", file_size := -7, duration := -1,
    width := -5, height := 0, fps := -2, format := .mp4, description := "",
    tags := [], user_id := 1 }

def postBadCreate : RedditPostCreate :=
  { reddit_id := "zzz9", subreddit := "stories", title := "negative",
    content := "", author := "eve", score := -3, num_comments := -1,
    created_utc := 0, url := "https://r/zzz9", permalink := "/r/zzz9",
    word_count := -50, estimated_duration := -30, user_id := 1 }

theorem user_roundtrip (u : User) :
    User.deserialize u.serialize = some u := rfl

theorem redditPost_roundtrip (p : RedditPost) :
    RedditPost.deserialize p.serialize = some p := rfl

theorem backgroundVideo_roundtrip (v : BackgroundVideo) :
    BackgroundVideo.deserialize v.serialize = some v := by
  rcases v with ⟨_, _, _, _, _, _, _, _, _, fmt, _, _, _, _, _⟩
  cases fmt <;> rfl

theorem ttsConfiguration_roundtrip (c : TTSConfiguration) :
    TTSConfiguration.deserialize c.serialize = some c := by
  rcases c with ⟨_, _, pr, _, _, _, _, _, _, _, _, _, _⟩
  cases pr <;> rfl

theorem subtitleStyle_roundtrip (st : SubtitleStyle) :
    SubtitleStyle.deserialize st.serialize = some st := rfl

theorem videoGenerationJob_roundtrip (j : VideoGenerationJob) :
    VideoGenerationJob.deserialize j.serialize = some j := by
  rcases j with ⟨_, _, st, _, _, _, _, fmt, _, _, _, _, _, _, _, _, _, _, _,
    _, _, _, _, _, _, _, _, _⟩
  cases st <;> cases fmt <;> rfl

theorem jobProgressUpdate_roundtrip (p : JobProgressUpdate) :
    JobProgressUpdate.deserialize p.serialize = some p := rfl

theorem storeInv_empty : StoreInv emptyStore := by
  refine ⟨?_, ?_, ?_⟩
  · intro j hj
    simp [emptyStore] at hj
  · intro p hp
    simp [emptyStore] at hp
  · intro jid
    simp [progressLog, emptyStore]

/-- A field-valid `VideoGenerationJobUpdate` carries an in-range progress
value when it carries one at all. -/
theorem jobUpdate_valid_progress {u : VideoGenerationJobUpdate}
    (hv : u.valid = true) {p : ℚ} (hp : u.progress_percentage = some p) :
    0 ≤ p ∧ p ≤ 100 := by
  simp only [VideoGenerationJobUpdate.valid, Bool.and_eq_true] at hv
  have h := hv.1.1.1.1.2
  rw [hp] at h
  simpa [optRatIn, ratIn, decide_eq_true_eq] using h

/-- A field-valid `JobProgressUpdateCreate` carries an in-range progress
value. -/
theorem progressCreate_valid_progress {c : JobProgressUpdateCreate}
    (hv : c.valid = true) :
    0 ≤ c.progress_percentage ∧ c.progress_percentage ≤ 100 := by
  simp only [JobProgressUpdateCreate.valid, Bool.and_eq_true] at hv
  have h := hv.1.1
  simpa [ratIn, decide_eq_true_eq] using h

theorem applyJobFields_progress (job : VideoGenerationJob)
    (u : VideoGenerationJobUpdate) (now : DateTime) :
    (applyJobFields job u now).progress_percentage =
      u.progress_percentage.getD job.progress_percentage := rfl

/-- A successful job update keeps `retry_count ≤ max_retries` and
`progress_percentage ∈ [0, 100]`. -/
theorem applyJobUpdate_ok_bounds {job j' : VideoGenerationJob}
    {u : VideoGenerationJobUpdate} {now : DateTime}
    (h : applyJobUpdate job u now = .ok j')
    (hr : job.retry_count ≤ job.max_retries)
    (hp0 : 0 ≤ job.progress_percentage) (hp1 : job.progress_percentage ≤ 100) :
    j'.retry_count ≤ j'.max_retries ∧
      0 ≤ j'.progress_percentage ∧ j'.progress_percentage ≤ 100 := by
  have hv : u.valid = true := by
    by_contra hvn
    have hv' : u.valid = false := by simpa using hvn
    unfold applyJobUpdate at h
    rw [hv'] at h
    simp at h
  have hpf : 0 ≤ (applyJobFields job u now).progress_percentage ∧
      (applyJobFields job u now).progress_percentage ≤ 100 := by
    rw [applyJobFields_progress]
    cases hup : u.progress_percentage with
    | none => exact ⟨hp0, hp1⟩
    | some p => exact jobUpdate_valid_progress hv hup
  unfold applyJobUpdate at h
  rw [hv] at h
  simp only [Bool.not_true, Bool.false_eq_true, if_false] at h
  split at h
  · simp only [Except.ok.injEq] at h
    subst h
    exact ⟨hr, hpf⟩
  · split at h
    · simp only [Except.ok.injEq] at h
      subst h
      exact ⟨hr, hpf⟩
    · by_cases hc : (applyJobFields job u now).progress_percentage = 100
      · rw [if_pos hc] at h
        simp only [Except.ok.injEq] at h
        subst h
        exact ⟨hr, hpf⟩
      · rw [if_neg hc] at h
        simp at h
    · by_cases hlt : job.retry_count < job.max_retries
      · rw [if_pos hlt] at h
        simp only [Except.ok.injEq] at h
        subst h
        exact ⟨hlt, hpf⟩
      · rw [if_neg hlt] at h
        simp only [Except.ok.injEq] at h
        subst h
        exact ⟨hr, hpf⟩
    · simp only [Except.ok.injEq] at h
      subst h
      exact ⟨hr, hpf⟩
    · simp at h

theorem storeInv_createUser {s s' : Store} {c : UserCreate} {now : DateTime}
    (h : createUser s c now = .ok s') (hi : StoreInv s) : StoreInv s' := by
  unfold createUser at h
  split at h
  · simp at h
  · split at h
    · simp at h
    · simp only [Except.ok.injEq] at h
      subst h
      exact hi

theorem storeInv_createRedditPost {s s' : Store} {c : RedditPostCreate}
    {now : DateTime} (h : createRedditPost s c now = .ok s') (hi : StoreInv s) :
    StoreInv s' := by
  unfold createRedditPost at h
  split at h
  · simp at h
  · split at h
    · simp at h
    · split at h
      · simp at h
      · simp only [Except.ok.injEq] at h
        subst h
        exact hi

theorem storeInv_createBackgroundVideo {s s' : Store} {c : BackgroundVideoCreate}
    {now : DateTime} (h : createBackgroundVideo s c now = .ok s')
    (hi : StoreInv s) : StoreInv s' := by
  unfold createBackgroundVideo at h
  split at h
  · simp at h
  · split at h
    · simp at h
    · simp only [Except.ok.injEq] at h
      subst h
      exact hi

theorem storeInv_updateBackgroundVideo {s s' : Store} {vid : Nat}
    {u : BackgroundVideoUpdate} {now : DateTime}
    (h : updateBackgroundVideo s vid u now = .ok s') (hi : StoreInv s) :
    StoreInv s' := by
  unfold updateBackgroundVideo at h
  split at h
  · simp at h
  · split at h
    · simp at h
    · simp only [Except.ok.injEq] at h
      subst h
      exact hi

theorem storeInv_createTTSConfiguration {s s' : Store}
    {c : TTSConfigurationCreate} {now : DateTime}
    (h : createTTSConfiguration s c now = .ok s') (hi : StoreInv s) :
    StoreInv s' := by
  unfold createTTSConfiguration at h
  split at h
  · simp at h
  · split at h
    · simp at h
    · simp only [Except.ok.injEq] at h
      subst h
      exact hi

theorem storeInv_updateTTSConfiguration {s s' : Store} {cid : Nat}
    {u : TTSConfigurationUpdate} {now : DateTime}
    (h : updateTTSConfiguration s cid u now = .ok s') (hi : StoreInv s) :
    StoreInv s' := by
  unfold updateTTSConfiguration at h
  split at h
  · simp at h
  · split at h
    · simp at h
    · simp only [Except.ok.injEq] at h
      subst h
      exact hi

theorem storeInv_createSubtitleStyle {s s' : Store} {c : SubtitleStyleCreate}
    {now : DateTime} (h : createSubtitleStyle s c now = .ok s')
    (hi : StoreInv s) : StoreInv s' := by
  unfold createSubtitleStyle at h
  split at h
  · simp at h
  · split at h
    · simp at h
    · simp only [Except.ok.injEq] at h
      subst h
      exact hi

theorem storeInv_createVideoGenerationJob {s s' : Store}
    {c : VideoGenerationJobCreate} {now : DateTime}
    (h : createVideoGenerationJob s c now = .ok s') (hi : StoreInv s) :
    StoreInv s' := by
  unfold createVideoGenerationJob at h
  split at h
  · simp at h
  · split at h
    · simp at h
    · simp only [Except.ok.injEq] at h
      subst h
      obtain ⟨h1, h2, h3⟩ := hi
      refine ⟨?_, h2, h3⟩
      intro j hj
      replace hj : j ∈ s.videoJobs ++ [newVideoJobRow c s.nextId now] := hj
      rcases List.mem_append.mp hj with hmem | hmem
      · exact h1 j hmem
      · obtain rfl := List.mem_singleton.mp hmem
        refine ⟨?_, ?_, ?_⟩
        · show (0 : Nat) ≤ 3
          decide
        · show (0 : ℚ) ≤ 0
          exact le_refl 0
        · show (0 : ℚ) ≤ 100
          norm_num

theorem storeInv_updateVideoGenerationJob {s s' : Store} {jid : Nat}
    {u : VideoGenerationJobUpdate} {now : DateTime}
    (h : updateVideoGenerationJob s jid u now = .ok s') (hi : StoreInv s) :
    StoreInv s' := by
  unfold updateVideoGenerationJob at h
  split at h
  · simp at h
  · rename_i job hfind
    split at h
    · simp at h
    · rename_i j2 hap
      simp only [Except.ok.injEq] at h
      subst h
      obtain ⟨h1, h2, h3⟩ := hi
      refine ⟨?_, h2, h3⟩
      intro j hj
      replace hj : j ∈ s.videoJobs.map (fun x => if x.id == jid then j2 else x) := hj
      rcases List.mem_map.mp hj with ⟨x, hx, hfx⟩
      by_cases hxid : (x.id == jid) = true
      · rw [if_pos hxid] at hfx
        subst hfx
        have hjob := h1 job (List.mem_of_find?_eq_some hfind)
        exact applyJobUpdate_ok_bounds hap hjob.1 hjob.2.1 hjob.2.2
      · rw [if_neg hxid] at hfx
        subst hfx
        exact h1 x hx

theorem storeInv_createJobProgressUpdate {s s' : Store}
    {c : JobProgressUpdateCreate} {now : DateTime}
    (h : createJobProgressUpdate s c now = .ok s') (hi : StoreInv s) :
    StoreInv s' := by
  have hval : c.valid = true := by
    by_contra hvn
    have hv' : c.valid = false := by simpa using hvn
    unfold createJobProgressUpdate at h
    rw [hv'] at h
    simp at h
  unfold createJobProgressUpdate at h
  rw [hval] at h
  simp only [Bool.not_true, Bool.false_eq_true, if_false] at h
  split at h
  · simp at h
  · split at h
    · simp at h
    · rename_i hguard
      have hg' : ∀ p, latestProgress s c.video_job_id = some p →
          ¬ c.progress_percentage < p := by
        intro p hp hlt
        exact hguard (decide_eq_true ⟨p, Option.mem_def.mpr hp, hlt⟩)
      simp only [Except.ok.injEq] at h
      subst h
      obtain ⟨h1, h2, h3⟩ := hi
      refine ⟨h1, ?_, ?_⟩
      · intro p hp
        replace hp : p ∈ s.jobProgressUpdates ++ [newProgressRow c s.nextId now] := hp
        rcases List.mem_append.mp hp with hmem | hmem
        · exact h2 p hmem
        · obtain rfl := List.mem_singleton.mp hmem
          exact progressCreate_valid_progress hval
      · intro jid
        by_cases hb : c.video_job_id = jid
        · have hlog : progressLog { s with
              jobProgressUpdates :=
                s.jobProgressUpdates ++ [newProgressRow c s.nextId now],
              nextId := s.nextId + 1 } jid =
              progressLog s jid ++ [c.progress_percentage] := by
            simp [progressLog, List.filter_append, newProgressRow, hb]
          rw [hlog]
          refine List.chain'_append.mpr ⟨h3 jid, List.chain'_singleton _, ?_⟩
          intro x hx y hy
          simp only [List.head?_cons, Option.mem_def, Option.some.injEq] at hy
          subst hy
          have hlast : latestProgress s c.video_job_id = some x := by
            rw [latestProgress, hb]
            exact Option.mem_def.mp hx
          exact le_of_not_lt (hg' x hlast)
        · have hlog : progressLog { s with
              jobProgressUpdates :=
                s.jobProgressUpdates ++ [newProgressRow c s.nextId now],
              nextId := s.nextId + 1 } jid = progressLog s jid := by
            simp [progressLog, List.filter_append, newProgressRow, hb]
          rw [hlog]
          exact h3 jid

/-- Every reachable store state satisfies the store invariant. -/
theorem reachable_storeInv {s : Store} (h : Reachable s) : StoreInv s := by
  induction h with
  | init => exact storeInv_empty
  | step hr hstep ih =>
    rename_i s1 s2 op now
    cases op with
    | opCreateUser c => exact storeInv_createUser hstep ih
    | opCreateRedditPost c => exact storeInv_createRedditPost hstep ih
    | opCreateBackgroundVideo c => exact storeInv_createBackgroundVideo hstep ih
    | opUpdateBackgroundVideo vid u => exact storeInv_updateBackgroundVideo hstep ih
    | opCreateTTSConfiguration c => exact storeInv_createTTSConfiguration hstep ih
    | opUpdateTTSConfiguration cid u => exact storeInv_updateTTSConfiguration hstep ih
    | opCreateSubtitleStyle c => exact storeInv_createSubtitleStyle hstep ih
    | opCreateVideoGenerationJob c => exact storeInv_createVideoGenerationJob hstep ih
    | opUpdateVideoGenerationJob jid u => exact storeInv_updateVideoGenerationJob hstep ih
    | opCreateJobProgressUpdate c => exact storeInv_createJobProgressUpdate hstep ih

theorem reach_st1 : Reachable st1 :=
  Reachable.step Reachable.init
    (show stepOp emptyStore (.opCreateUser cu1) 0 = .ok st1 by rfl)

theorem reach_st2 : Reachable st2 :=
  Reachable.step reach_st1
    (show stepOp st1 (.opCreateRedditPost rp1) 1 = .ok st2 by rfl)

theorem reach_st3 : Reachable st3 :=
  Reachable.step reach_st2
    (show stepOp st2 (.opCreateBackgroundVideo bv1) 2 = .ok st3 by rfl)

theorem reach_st4 : Reachable st4 :=
  Reachable.step reach_st3
    (show stepOp st3 (.opCreateTTSConfiguration tc1) 3 = .ok st4 by rfl)

theorem reach_st5 : Reachable st5 :=
  Reachable.step reach_st4
    (show stepOp st4 (.opCreateSubtitleStyle sc1) 4 = .ok st5 by rfl)

theorem reach_st6 : Reachable st6 :=
  Reachable.step reach_st5
    (show stepOp st5 (.opCreateVideoGenerationJob jc1) 5 = .ok st6 by rfl)

theorem reach_st7 : Reachable st7 :=
  Reachable.step reach_st6
    (show stepOp st6 (.opCreateJobProgressUpdate pc1) 6 = .ok st7 by rfl)

/-- C1: a field-valid update that requests any status change on a
`VideoGenerationJob` whose status is terminal fails with StateError (at the
job level and at the store level, so the job is unchanged), and the only
requested transitions `applyJobUpdate` ever accepts are
`pending→processing`, `processing→completed`, `processing→failed` and
`processing→cancelled`. -/
theorem job_terminal_illegal_transition (job : VideoGenerationJob)
    (u : VideoGenerationJobUpdate) (now : DateTime) (t : JobStatus)
    (hv : u.valid = true) (hterm : JobStatus.isTerminal job.status = true)
    (ht : u.status = some t) :
    applyJobUpdate job u now = .error .stateError ∧
    (∀ (s : Store) (jid : Nat),
      s.videoJobs.find? (fun j => j.id == jid) = some job →
      updateVideoGenerationJob s jid u now = .error .stateError) ∧
    (∀ (job2 j2 : VideoGenerationJob) (u2 : VideoGenerationJobUpdate)
      (now2 : DateTime) (t2 : JobStatus), u2.status = some t2 →
      applyJobUpdate job2 u2 now2 = .ok j2 →
      allowedTransition job2.status t2 = true) ∧
    (∀ a b : JobStatus, allowedTransition a b = true ↔
      ((a = .pending ∧ b = .processing) ∨ (a = .processing ∧ b = .completed) ∨
       (a = .processing ∧ b = .failed) ∨ (a = .processing ∧ b = .cancelled))) := by
  have h1 : applyJobUpdate job u now = .error .stateError := by
    unfold applyJobUpdate
    rw [hv]
    simp only [Bool.not_true, Bool.false_eq_true, if_false]
    rw [ht]
    cases hjs : job.status with
    | pending => rw [hjs] at hterm; simp [JobStatus.isTerminal] at hterm
    | processing => rw [hjs] at hterm; simp [JobStatus.isTerminal] at hterm
    | completed => cases t <;> rfl
    | failed => cases t <;> rfl
    | cancelled => cases t <;> rfl
  refine ⟨h1, ?_, ?_, ?_⟩
  · intro s jid hfind
    unfold updateVideoGenerationJob
    rw [hfind]
    simp only [h1]
  · intro job2 j2 u2 now2 t2 ht2 hok
    have hv2 : u2.valid = true := by
      by_contra hvn
      have hv' : u2.valid = false := by simpa using hvn
      unfold applyJobUpdate at hok
      rw [hv'] at hok
      simp at hok
    unfold applyJobUpdate at hok
    rw [hv2] at hok
    simp only [Bool.not_true, Bool.false_eq_true, if_false] at hok
    rw [ht2] at hok
    cases hjs2 : job2.status <;> rw [hjs2] at hok <;> cases t2 <;>
      first
        | rfl
        | simp at hok
  · intro a b
    cases a <;> cases b <;> decide

theorem job_terminal_illegal_transition_witness :
    updToPending.valid = true ∧
    JobStatus.isTerminal jobDone.status = true ∧
    updToPending.status = some .pending ∧
    applyJobUpdate jobDone updToPending 9 = .error .stateError :=
  ⟨rfl, rfl, rfl,
    (job_terminal_illegal_transition jobDone updToPending 9 .pending
      rfl rfl rfl).1⟩

/-- C2: creating a User whose username or email matches an existing row, or
creating a RedditPost whose reddit_id matches an existing row, fails with
ConflictError (and, returning an error, leaves the store unchanged). -/
theorem duplicate_unique_create_conflict :
    (∀ (s : Store) (c : UserCreate) (now : DateTime) (u : User),
      u ∈ s.users → c.valid = true →
      (u.username = c.username ∨ u.email = c.email) →
      createUser s c now = .error .conflictError) ∧
    (∀ (s : Store) (c : RedditPostCreate) (now : DateTime) (p : RedditPost),
      p ∈ s.redditPosts → c.valid = true → p.reddit_id = c.reddit_id →
      createRedditPost s c now = .error .conflictError) := by
  constructor
  · intro s c now u hu hv hdup
    unfold createUser
    rw [hv]
    simp only [Bool.not_true, Bool.false_eq_true, if_false]
    have hany : (s.users.any
        (fun x => x.username == c.username || x.email == c.email)) = true := by
      refine List.any_eq_true.mpr ⟨u, hu, ?_⟩
      rcases hdup with hd | hd
      · simp [hd]
      · simp [hd]
    rw [hany]
    rfl
  · intro s c now p hp hv hdup
    unfold createRedditPost
    rw [hv]
    simp only [Bool.not_true, Bool.false_eq_true, if_false]
    have hany : (s.redditPosts.any (fun x => x.reddit_id == c.reddit_id)) = true := by
      refine List.any_eq_true.mpr ⟨p, hp, ?_⟩
      simp [hdup]
    rw [hany]
    rfl

theorem duplicate_unique_create_conflict_witness :
    createUser st1 cuDup 9 = .error .conflictError ∧
    createRedditPost st2 rpDup 9 = .error .conflictError :=
  ⟨duplicate_unique_create_conflict.1 st1 cuDup 9 user1
      (List.mem_singleton.mpr rfl) rfl (Or.inl rfl),
   duplicate_unique_create_conflict.2 st2 rpDup 9 post1
      (List.mem_singleton.mpr rfl) rfl rfl⟩

/-- C3: a TTSConfiguration create or update whose speed lies outside
[0.1, 3.0] fails with ValidationError, and an in-range speed is accepted with
respect to that field: validity then coincides with the validity of the
remaining declared constraints, independently of the speed value. -/
theorem tts_speed_bound_validation :
    (∀ (s : Store) (c : TTSConfigurationCreate) (now : DateTime),
      ¬(mkRat 1 10 ≤ c.speed ∧ c.speed ≤ 3) →
      createTTSConfiguration s c now = .error .validationError) ∧
    (∀ (s : Store) (cid : Nat) (u : TTSConfigurationUpdate) (now : DateTime)
      (x : ℚ), u.speed = some x → ¬(mkRat 1 10 ≤ x ∧ x ≤ 3) →
      updateTTSConfiguration s cid u now = .error .validationError) ∧
    (∀ (c : TTSConfigurationCreate) (x : ℚ),
      mkRat 1 10 ≤ x → x ≤ 3 →
      TTSConfigurationCreate.valid { c with speed := x } =
        (lenLe c.name 100 && lenLe c.voice_id 100 && lenLe c.voice_name 100 &&
         ratIn c.pitch (mkRat 1 10) 2 && ratIn c.volume (mkRat 1 10) 2)) ∧
    (∀ (u : TTSConfigurationUpdate) (x : ℚ),
      mkRat 1 10 ≤ x → x ≤ 3 →
      TTSConfigurationUpdate.valid { u with speed := some x } =
        (optLenLe u.name 100 && optLenLe u.voice_id 100 &&
         optLenLe u.voice_name 100 && optRatIn u.pitch (mkRat 1 10) 2 &&
         optRatIn u.volume (mkRat 1 10) 2)) := by
  refine ⟨?_, ?_, ?_, ?_⟩
  · intro s c now hout
    have hsf : ratIn c.speed (mkRat 1 10) 3 = false := by
      unfold ratIn
      by_cases h1 : mkRat 1 10 ≤ c.speed
      · by_cases h2 : c.speed ≤ 3
        · exact absurd ⟨h1, h2⟩ hout
        · simp [h2]
      · simp [h1]
    have hvf : c.valid = false := by
      simp [TTSConfigurationCreate.valid, hsf]
    unfold createTTSConfiguration
    rw [hvf]
    rfl
  · intro s cid u now x hsp hout
    have hsf : optRatIn u.speed (mkRat 1 10) 3 = false := by
      rw [hsp]
      show ratIn x (mkRat 1 10) 3 = false
      unfold ratIn
      by_cases h1 : mkRat 1 10 ≤ x
      · by_cases h2 : x ≤ 3
        · exact absurd ⟨h1, h2⟩ hout
        · simp [h2]
      · simp [h1]
    have hvf : u.valid = false := by
      simp [TTSConfigurationUpdate.valid, hsf]
    unfold updateTTSConfiguration
    rw [hvf]
    rfl
  · intro c x h1 h2
    have hx : ratIn x (mkRat 1 10) 3 = true := by
      unfold ratIn
      simp [h1, h2]
    simp [TTSConfigurationCreate.valid, hx]
  · intro u x h1 h2
    have hx : optRatIn (some x) (mkRat 1 10) 3 = true := by
      show ratIn x (mkRat 1 10) 3 = true
      unfold ratIn
      simp [h1, h2]
    simp [TTSConfigurationUpdate.valid, hx]

theorem tts_speed_bound_validation_witness :
    createTTSConfiguration emptyStore ttsBadCreate 0 = .error .validationError ∧
    updateTTSConfiguration emptyStore 1 ttsBadUpdate 0 = .error .validationError ∧
    TTSConfigurationCreate.valid { ttsBadCreate with speed := mkRat 3 2 } =
      (lenLe ttsBadCreate.name 100 && lenLe ttsBadCreate.voice_id 100 &&
       lenLe ttsBadCreate.voice_name 100 &&
       ratIn ttsBadCreate.pitch (mkRat 1 10) 2 &&
       ratIn ttsBadCreate.volume (mkRat 1 10) 2) ∧
    TTSConfigurationUpdate.valid { ttsBadUpdate with speed := some (mkRat 3 2) } =
      (optLenLe ttsBadUpdate.name 100 && optLenLe ttsBadUpdate.voice_id 100 &&
       optLenLe ttsBadUpdate.voice_name 100 &&
       optRatIn ttsBadUpdate.pitch (mkRat 1 10) 2 &&
       optRatIn ttsBadUpdate.volume (mkRat 1 10) 2) :=
  ⟨tts_speed_bound_validation.1 emptyStore ttsBadCreate 0 (by decide),
   tts_speed_bound_validation.2.1 emptyStore 1 ttsBadUpdate 0 5 rfl (by decide),
   tts_speed_bound_validation.2.2.1 ttsBadCreate (mkRat 3 2) (by decide) (by decide),
   tts_speed_bound_validation.2.2.2 ttsBadUpdate (mkRat 3 2) (by decide) (by decide)⟩

/-- C4: in every reachable store state, the progress_percentage values of the
JobProgressUpdate entries of each job are non-decreasing in creation order,
and a create carrying a lower progress_percentage than the latest recorded
entry of that job is never recorded. -/
theorem progress_log_nondecreasing (s : Store) (hs : Reachable s) :
    (∀ jid : Nat, List.Chain' (fun a b => a ≤ b) (progressLog s jid)) ∧
    (∀ (c : JobProgressUpdateCreate) (now : DateTime) (p : ℚ),
      latestProgress s c.video_job_id = some p → c.progress_percentage < p →
      ∀ s' : Store, createJobProgressUpdate s c now ≠ .ok s') := by
  refine ⟨(reachable_storeInv hs).2.2, ?_⟩
  intro c now p hlast hlt s' hok
  unfold createJobProgressUpdate at hok
  split at hok
  · simp at hok
  · split at hok
    · simp at hok
    · split at hok
      · simp at hok
      · rename_i hguard
        exact hguard (decide_eq_true ⟨p, Option.mem_def.mpr hlast, hlt⟩)

theorem progress_log_nondecreasing_witness :
    List.Chain' (fun a b => a ≤ b) (progressLog st7 6) ∧
    createJobProgressUpdate st7 lowUpd 9 ≠ .ok st7 :=
  ⟨(progress_log_nondecreasing st7 reach_st7).1 6,
   (progress_log_nondecreasing st7 reach_st7).2 lowUpd 9 10 rfl (by decide) st7⟩

/-- C5: in every reachable store state, every stored VideoGenerationJob has
retry_count ≤ max_retries. -/
theorem retry_count_le_max_retries (s : Store) (hs : Reachable s) :
    ∀ j ∈ s.videoJobs, j.retry_count ≤ j.max_retries :=
  fun j hj => ((reachable_storeInv hs).1 j hj).1

theorem retry_count_le_max_retries_witness :
    job1 ∈ st6.videoJobs ∧ job1.retry_count ≤ job1.max_retries :=
  ⟨List.mem_singleton.mpr rfl,
   retry_count_le_max_retries st6 reach_st6 job1 (List.mem_singleton.mpr rfl)⟩

/-- C6 counterexample: a BackgroundVideo create whose duration, width,
height and fps are all non-positive succeeds against a store holding its
user, so the claimed positivity validation does not exist. -/
theorem bg_nonpositive_create_succeeds :
    storeOpSucceeded (createBackgroundVideo st1 bgBadCreate 9) = true := rfl

/-- C6 amended: a BackgroundVideo create validates only the declared
string-length constraints; duration, width, height, fps (and file_size) are
not constrained, so the outcome of validation is independent of them, and
ValidationError occurs exactly when the declared field validation fails. -/
theorem bg_create_no_dimension_bounds :
    (∀ (c : BackgroundVideoCreate) (d fp : ℚ) (w ht fs : Int),
      BackgroundVideoCreate.valid
        { c with
          duration := d, fps := fp, width := w, height := ht,
          file_size := fs } = BackgroundVideoCreate.valid c) ∧
    (∀ (s : Store) (c : BackgroundVideoCreate) (now : DateTime),
      createBackgroundVideo s c now = .error .validationError ↔
        c.valid = false) := by
  constructor
  · intro c d fp w ht fs
    rfl
  · intro s c now
    constructor
    · intro h
      unfold createBackgroundVideo at h
      split at h
      · rename_i hcond
        simpa using hcond
      · split at h
        · simp at h
        · simp at h
    · intro hv
      unfold createBackgroundVideo
      rw [hv]
      rfl

/-- C7 counterexample: a RedditPost create with negative word_count and
estimated_duration succeeds against a store holding its user and no
conflicting reddit_id, so the claimed non-negativity validation does not
exist. -/
theorem post_negative_counts_create_succeeds :
    storeOpSucceeded (createRedditPost st1 postBadCreate 9) = true := rfl

/-- C7 amended: a RedditPost create validates only the declared
string-length constraints; word_count and estimated_duration are not
constrained, so the outcome of validation is independent of them, and
ValidationError occurs exactly when the declared field validation fails. -/
theorem post_create_no_count_bounds :
    (∀ (c : RedditPostCreate) (w : Int) (e : ℚ),
      RedditPostCreate.valid { c with word_count := w, estimated_duration := e }
        = RedditPostCreate.valid c) ∧
    (∀ (s : Store) (c : RedditPostCreate) (now : DateTime),
      createRedditPost s c now = .error .validationError ↔
        c.valid = false) := by
  constructor
  · intro c w e
    rfl
  · intro s c now
    constructor
    · intro h
      unfold createRedditPost at h
      split at h
      · rename_i hcond
        simpa using hcond
      · split at h
        · simp at h
        · split at h
          · simp at h
          · simp at h
    · intro hv
      unfold createRedditPost
      rw [hv]
      rfl

/-- C8: serializing then deserializing any entity of any of the seven
declared types yields the original entity, field for field. -/
theorem entity_serialization_roundtrip :
    (∀ u : User, User.deserialize u.serialize = some u) ∧
    (∀ p : RedditPost, RedditPost.deserialize p.serialize = some p) ∧
    (∀ v : BackgroundVideo, BackgroundVideo.deserialize v.serialize = some v) ∧
    (∀ c : TTSConfiguration,
      TTSConfiguration.deserialize c.serialize = some c) ∧
    (∀ st : SubtitleStyle, SubtitleStyle.deserialize st.serialize = some st) ∧
    (∀ j : VideoGenerationJob,
      VideoGenerationJob.deserialize j.serialize = some j) ∧
    (∀ p : JobProgressUpdate,
      JobProgressUpdate.deserialize p.serialize = some p) :=
  ⟨user_roundtrip, redditPost_roundtrip,
   backgroundVideo_roundtrip,
   ttsConfiguration_roundtrip,
   subtitleStyle_roundtrip,
   videoGenerationJob_roundtrip,
   jobProgressUpdate_roundtrip⟩

/-- C9: applying a BackgroundVideoUpdate to a stored row leaves id,
filename, original_filename, file_path, file_size, duration, width, height,
fps, format, user_id and created_at unchanged; the DTO carries only
description and tags. -/
theorem background_video_update_frame (v : BackgroundVideo)
    (u : BackgroundVideoUpdate) (now : DateTime) :
    (applyBackgroundVideoUpdate v u now).id = v.id ∧
    (applyBackgroundVideoUpdate v u now).filename = v.filename ∧
    (applyBackgroundVideoUpdate v u now).original_filename =
      v.original_filename ∧
    (applyBackgroundVideoUpdate v u now).file_path = v.file_path ∧
    (applyBackgroundVideoUpdate v u now).file_size = v.file_size ∧
    (applyBackgroundVideoUpdate v u now).duration = v.duration ∧
    (applyBackgroundVideoUpdate v u now).width = v.width ∧
    (applyBackgroundVideoUpdate v u now).height = v.height ∧
    (applyBackgroundVideoUpdate v u now).fps = v.fps ∧
    (applyBackgroundVideoUpdate v u now).format = v.format ∧
    (applyBackgroundVideoUpdate v u now).user_id = v.user_id ∧
    (applyBackgroundVideoUpdate v u now).created_at = v.created_at :=
  ⟨rfl, rfl, rfl, rfl, rfl, rfl, rfl, rfl, rfl, rfl, rfl, rfl⟩

/-- C10: in every reachable store state, progress_percentage lies in
[0, 100] for every stored VideoGenerationJob and every stored
JobProgressUpdate. -/
theorem progress_percentage_in_range (s : Store) (hs : Reachable s) :
    (∀ j ∈ s.videoJobs,
      0 ≤ j.progress_percentage ∧ j.progress_percentage ≤ 100) ∧
    (∀ p ∈ s.jobProgressUpdates,
      0 ≤ p.progress_percentage ∧ p.progress_percentage ≤ 100) := by
  obtain ⟨h1, h2, _⟩ := reachable_storeInv hs
  exact ⟨fun j hj => (h1 j hj).2, h2⟩

theorem progress_percentage_in_range_witness :
    (0 ≤ job1.progress_percentage ∧ job1.progress_percentage ≤ 100) ∧
    (0 ≤ jpu1.progress_percentage ∧ jpu1.progress_percentage ≤ 100) :=
  ⟨(progress_percentage_in_range st7 reach_st7).1 job1
      (List.mem_singleton.mpr rfl),
   (progress_percentage_in_range st7 reach_st7).2 jpu1
      (List.mem_singleton.mpr rfl)⟩
